import Mathlib

/-
Verification development for the leighton-relationship acquisition-and-fusion
pipeline. The first part embeds the data model and operations of
src/scraper.py (entity capability filtering, long-to-wide reshaping with
per-channel metadata capture) and src/Scrapers/SynopticScraper.py (nearest
station fusion merge). The second part states and proves the behavioural
properties of the specification against these embeddings.
-/

set_option maxHeartbeats 1000000

namespace Leighton

/-! ## Generic list utilities used by the embedding -/

/-- Occurrence of the pattern character list at the head of a character
list. -/
def charsHavePre : List Char → List Char → Bool
  | [], _ => true
  | _ :: _, [] => false
  | p :: ps, c :: cs => p == c && charsHavePre ps cs

/-- Occurrence of the pattern character list anywhere in a character list. -/
def hasSub : List Char → List Char → Bool
  | [], pat => pat.isEmpty
  | c :: cs, pat => charsHavePre pat (c :: cs) || hasSub cs pat

/-- Substring containment test on strings, embedding the Python expression
pat in s used at src/Scrapers/SynopticScraper.py line 157. -/
def strContains (s pat : String) : Bool := hasSub s.data pat.data

/-- Distinct elements of a list in order of first occurrence, embedding the
behaviour of pandas Series.unique and of accumulating into a Python set. -/
def uniqueFirst {α : Type} [DecidableEq α] : List α → List α
  | [] => []
  | x :: xs => x :: (uniqueFirst xs).filter (fun y => y != x)

theorem mem_uniqueFirst {α : Type} [DecidableEq α] {a : α} {l : List α} :
    a ∈ uniqueFirst l ↔ a ∈ l := by
  induction l with
  | nil => simp [uniqueFirst]
  | cons x xs ih =>
    simp only [uniqueFirst, List.mem_cons, List.mem_filter, ih, bne_iff_ne]
    by_cases h : a = x
    · simp [h]
    · simp [h]

theorem uniqueFirst_nodup {α : Type} [DecidableEq α] (l : List α) :
    (uniqueFirst l).Nodup := by
  induction l with
  | nil => simp [uniqueFirst]
  | cons x xs ih =>
    simp only [uniqueFirst, List.nodup_cons]
    refine ⟨fun hx => ?_, ih.filter _⟩
    simp [List.mem_filter] at hx

theorem uniqueFirst_eq_nil {α : Type} [DecidableEq α] {l : List α} :
    uniqueFirst l = [] ↔ l = [] := by
  cases l with
  | nil => simp [uniqueFirst]
  | cons x xs => simp [uniqueFirst]

theorem uniqueFirst_eq_singleton {α : Type} [DecidableEq α] {l : List α} {v : α} :
    uniqueFirst l = [v] ↔ v ∈ l ∧ ∀ w ∈ l, w = v := by
  constructor
  · intro h
    have hv : v ∈ l := mem_uniqueFirst.mp (h ▸ List.mem_singleton_self v)
    refine ⟨hv, fun w hw => ?_⟩
    have hw2 : w ∈ uniqueFirst l := mem_uniqueFirst.mpr hw
    rw [h, List.mem_singleton] at hw2
    exact hw2
  · rintro ⟨hv, hall⟩
    cases l with
    | nil => cases hv
    | cons x xs =>
      have hx : x = v := hall x (List.mem_cons_self x xs)
      subst hx
      have hfil : (uniqueFirst xs).filter (fun y => y != x) = [] := by
        rw [List.filter_eq_nil_iff]
        intro a ha
        have : a = x := hall a (List.mem_cons_of_mem _ (mem_uniqueFirst.mp ha))
        simp [this]
      simp [uniqueFirst, hfil]

/-- Insertion of an element into a sorted list of naturals. -/
def insertSorted (x : Nat) : List Nat → List Nat
  | [] => [x]
  | y :: ys => if x ≤ y then x :: y :: ys else y :: insertSorted x ys

/-- Insertion sort on naturals, embedding the ascending index order produced
by pandas pivot_table. -/
def sortNat : List Nat → List Nat
  | [] => []
  | x :: xs => insertSorted x (sortNat xs)

theorem insertSorted_perm (x : Nat) (l : List Nat) :
    (insertSorted x l).Perm (x :: l) := by
  induction l with
  | nil => simp [insertSorted]
  | cons y ys ih =>
    by_cases h : x ≤ y
    · simp [insertSorted, h]
    · simp only [insertSorted, if_neg h]
      exact ((ih.cons y).trans (List.Perm.swap x y ys))

theorem sortNat_perm (l : List Nat) : (sortNat l).Perm l := by
  induction l with
  | nil => simp [sortNat]
  | cons x xs ih => exact (insertSorted_perm x (sortNat xs)).trans (ih.cons x)

theorem mem_sortNat {a : Nat} {l : List Nat} : a ∈ sortNat l ↔ a ∈ l :=
  (sortNat_perm l).mem_iff

theorem sortNat_nodup {l : List Nat} (h : l.Nodup) : (sortNat l).Nodup :=
  ((sortNat_perm l).nodup_iff).2 h

/-- Insertion of a string into a sorted list of strings. -/
def insertSortedStr (x : String) : List String → List String
  | [] => [x]
  | y :: ys => if x < y then x :: y :: ys else y :: insertSortedStr x ys

/-- Insertion sort on strings, embedding the ascending column-label order
produced by pandas pivot_table. -/
def sortStr : List String → List String
  | [] => []
  | x :: xs => insertSortedStr x (sortStr xs)

theorem insertSortedStr_perm (x : String) (l : List String) :
    (insertSortedStr x l).Perm (x :: l) := by
  induction l with
  | nil => simp [insertSortedStr]
  | cons y ys ih =>
    by_cases h : x < y
    · simp [insertSortedStr, h]
    · simp only [insertSortedStr, if_neg h]
      exact ((ih.cons y).trans (List.Perm.swap x y ys))

theorem sortStr_perm (l : List String) : (sortStr l).Perm l := by
  induction l with
  | nil => simp [sortStr]
  | cons x xs ih => exact (insertSortedStr_perm x (sortStr xs)).trans (ih.cons x)

theorem mem_sortStr {a : String} {l : List String} : a ∈ sortStr l ↔ a ∈ l :=
  (sortStr_perm l).mem_iff

/-! ## Channel requirements, from src/scraper.py lines 39 to 46 -/

/-- The PARAMS mapping of src/scraper.py: external parameter code to
canonical channel name, in source order. -/
def PARAMS : List (String × String) :=
  [("44201", "O3"), ("42601", "NO"), ("42602", "NO2"), ("63301", "SR"), ("62101", "Temp")]

/-- The required parameter codes, the keys of PARAMS. -/
def requiredCodes : List String := PARAMS.map Prod.fst

/-- The required canonical column names, src/scraper.py line 263. -/
def requiredCols : List String := ["O3", "NO", "NO2", "SR", "Temp"]

/-! ## Raw samples and the wide canonical table, src/scraper.py lines 221 to 269.

Timestamps are modelled as naturals (the parsed date_local plus time_local of
line 226), measurement values as rationals, and the remaining record fields
(the attribute columns of the long-format dataframe) as an association list
from field name to an optional string value, where none models a missing or
null cell. -/

/-- One long-format sample record as returned by the sample retrieval
endpoint and turned into a dataframe row at src/scraper.py line 223. -/
structure RawRecord where
  dt : Nat
  parameter_code : String
  sample_measurement : ℚ
  attrs : List (String × Option String)
deriving DecidableEq

/-- Canonical channel name of a record, embedding
df.parameter_code.map(PARAMS) at src/scraper.py line 227; none models the
NaN produced for a code outside PARAMS. -/
def paramName (r : RawRecord) : Option String := PARAMS.lookup r.parameter_code

/-- A wide table: named value columns plus rows of (timestamp, cells), the
cells aligned with the column list. The timestamp models the datetime index
or column; none in a cell models NaN. -/
structure Frame where
  cols : List String
  rows : List (Nat × List (Option ℚ))
deriving DecidableEq

/-- Well-formedness: every row has one cell per column. -/
def FrameWF (f : Frame) : Prop := ∀ r ∈ f.rows, r.2.length = f.cols.length

/-- Measurement values of the records falling in the pivot group of
timestamp t and channel ch. -/
def groupVals (records : List RawRecord) (t : Nat) (ch : String) : List ℚ :=
  (records.filter (fun r => r.dt == t && paramName r == some ch)).map
    (fun r => r.sample_measurement)

/-- Arithmetic mean of a list of rationals. -/
def mean (l : List ℚ) : ℚ := l.sum / (l.length : ℚ)

/-- One cell of the pivot table of src/scraper.py line 255: the mean of the
group values, or NaN (none) for an empty group. -/
def pivotCell (records : List RawRecord) (t : Nat) (ch : String) : Option ℚ :=
  if groupVals records t ch = [] then none else some (mean (groupVals records t ch))

/-- Row index of the pivot table: the distinct timestamps of records whose
parameter code maps to a canonical name, ascending. Records whose code is
outside PARAMS carry a NaN group key and are dropped by pivot_table. -/
def pivotIndex (records : List RawRecord) : List Nat :=
  sortNat (uniqueFirst ((records.filter (fun r => (paramName r).isSome)).map (fun r => r.dt)))

/-- Column labels of the pivot table: the distinct observed canonical
channel names, ascending. -/
def pivotCols (records : List RawRecord) : List String :=
  sortStr (uniqueFirst (records.filterMap paramName))

/-- The pivot table of src/scraper.py line 255, which is saved as the raw
CSV at line 259 before any reindexing. -/
def rawFrame (records : List RawRecord) : Frame :=
  { cols := pivotCols records
    rows := (pivotIndex records).map
      (fun t => (t, (pivotCols records).map (fun ch => pivotCell records t ch))) }

/-- The table after df_pivoted.reindex(columns=required_cols) at
src/scraper.py line 264: same row index, exactly the required columns in
fixed order, a column with no data appearing as all missing. -/
def reindexedFrame (records : List RawRecord) : Frame :=
  { cols := requiredCols
    rows := (pivotIndex records).map
      (fun t => (t, requiredCols.map (fun ch => pivotCell records t ch))) }

/-- df.dropna() on a wide table: keep exactly the rows with no missing cell. -/
def dropna (f : Frame) : Frame :=
  { cols := f.cols, rows := f.rows.filter (fun r => r.2.all (fun c => c.isSome)) }

/-- The cleaned table saved at src/scraper.py lines 265 to 268. -/
def cleanedFrame (records : List RawRecord) : Frame :=
  dropna (reindexedFrame records)

/-! ## Per-channel metadata, src/scraper.py lines 229 to 252 -/

/-- The excluded dataframe columns of src/scraper.py line 235. -/
def excludeFields : List String :=
  ["date_local", "time_local", "date_gmt", "time_gmt", "sample_measurement",
   "datetime", "param_name", "parameter_code", "state_code", "county_code", "site_number"]

/-- Value of an attribute field on a record; none models both an absent key
and a null cell, matching the dropna of src/scraper.py line 238. -/
def attrValue (r : RawRecord) (f : String) : Option String := (r.attrs.lookup f).join

/-- All attribute field names appearing across the records, in first
occurrence order, modelling the column set of the long dataframe. -/
def allFields (records : List RawRecord) : List String :=
  uniqueFirst (records.flatMap (fun r => r.attrs.map Prod.fst))

/-- The candidate metadata fields of src/scraper.py line 236. -/
def candidateFields (records : List RawRecord) : List String :=
  (allFields records).filter (fun f => !(excludeFields.contains f))

/-- Collapsed value of one metadata field: the Python None, a single scalar,
or the list of distinct values, as assigned at src/scraper.py lines 244
to 249. -/
inductive FieldVal where
  | nullVal : FieldVal
  | scalar : String → FieldVal
  | multi : List String → FieldVal
deriving DecidableEq

/-- Metadata of one channel: the string No Data for a channel with no
records, else a mapping from candidate field to collapsed value. -/
inductive ChannelMeta where
  | noData : ChannelMeta
  | fieldMap : List (String × FieldVal) → ChannelMeta
deriving DecidableEq

/-- Collapse rule for one field over the records of one channel,
src/scraper.py lines 237 to 249: distinct non-null values in first
occurrence order; zero gives None, one gives the scalar, more gives
the list. -/
def collapseField (subset : List RawRecord) (f : String) : FieldVal :=
  match uniqueFirst (subset.filterMap (fun r => attrValue r f)) with
  | [] => FieldVal.nullVal
  | [v] => FieldVal.scalar v
  | vs => FieldVal.multi vs

/-- Metadata of the channel with parameter code, src/scraper.py lines 231
to 252. -/
def channelDetails (records : List RawRecord) (code : String) : ChannelMeta :=
  let subset := records.filter (fun r => r.parameter_code == code)
  if subset.isEmpty then ChannelMeta.noData
  else ChannelMeta.fieldMap ((candidateFields records).map (fun f => (f, collapseField subset f)))

/-- The parameter_details mapping of src/scraper.py lines 230 to 252, one
entry per required channel in PARAMS order. -/
def parameter_details (records : List RawRecord) : List (String × ChannelMeta) :=
  PARAMS.map (fun p => (p.2, channelDetails records p.1))

/-! ## Capability filter, src/scraper.py lines 115 to 145 and 190 to 195 -/

/-- One instrumentation record returned by the monitors endpoint. -/
structure Monitor where
  parameter_code : String
deriving DecidableEq

/-- check_site_monitors of src/scraper.py on a successfully retrieved
monitor list: collect the observed codes that lie in PARAMS and test
containment of the required code set. -/
def check_site_monitors (monitors : List Monitor) : Bool × List String :=
  let found := uniqueFirst
    ((monitors.map (fun m => m.parameter_code)).filter (fun c => (PARAMS.lookup c).isSome))
  (requiredCodes.all (fun c => found.contains c), found)

/-- The artifacts written for one site: the raw CSV table, the cleaned CSV
table and the metadata details block. -/
structure SiteArtifacts where
  raw : Frame
  cleaned : Frame
  meta : List (String × ChannelMeta)
deriving DecidableEq

/-- One iteration of the site loop of src/scraper.py lines 179 to 284,
after discovery: a site failing the monitor check is skipped before any
retrieval (line 192), a site whose retrieval yields no records is skipped
before any artifact is written (lines 217 to 224), otherwise the three
artifacts are written. -/
def siteStep (monitors : List Monitor) (records : List RawRecord) : Option SiteArtifacts :=
  if (check_site_monitors monitors).1 = false then none
  else if records.isEmpty then none
  else some ⟨rawFrame records, cleanedFrame records, parameter_details records⟩

/-! ## Fusion merge, src/Scrapers/SynopticScraper.py lines 143 to 168.

The supplementary series is modelled as a list of (timestamp, value) pairs,
the two columns datetime_synoptic and SR_Synoptic of the synoptic dataframe
after the timezone normalisation of fetch_synoptic_data. -/

/-- Column assignment df[c] = None: overwrite the column in place when it
exists, else append a new all-missing column. -/
def setColNone (f : Frame) (c : String) : Frame :=
  if f.cols.contains c then
    { cols := f.cols
      rows := f.rows.map (fun r =>
        (r.1, (f.cols.zip r.2).map (fun p => if p.1 == c then none else p.2))) }
  else
    { cols := f.cols ++ [c], rows := f.rows.map (fun r => (r.1, r.2 ++ [none])) }

/-- df.drop(columns=cols_to_drop) for the columns whose name has
SR_Synoptic as a substring, src/Scrapers/SynopticScraper.py lines 157
to 160. -/
def dropSynCols (f : Frame) : Frame :=
  { cols := f.cols.filter (fun c => !(strContains c "SR_Synoptic"))
    rows := f.rows.map (fun r =>
      (r.1, ((f.cols.zip r.2).filter (fun p => !(strContains p.1 "SR_Synoptic"))).map Prod.snd)) }

/-- pd.merge(original, synoptic, on=datetime, how=left),
src/Scrapers/SynopticScraper.py line 166: left row order is preserved, each
left row is paired with every matching right row in right order, and a left
row with no match receives a missing fused value. -/
def mergeLeft (f : Frame) (syn : List (Nat × ℚ)) : Frame :=
  { cols := f.cols ++ ["SR_Synoptic"]
    rows := f.rows.flatMap (fun r =>
      match syn.filter (fun p => p.1 == r.1) with
      | [] => [(r.1, r.2 ++ [none])]
      | ms => ms.map (fun p => (r.1, r.2 ++ [some p.2]))) }

/-- fuse_data of src/Scrapers/SynopticScraper.py lines 143 to 168. -/
def fuse_data (original : Frame) (synoptic : List (Nat × ℚ)) : Frame :=
  if synoptic.isEmpty then setColNone original "SR_Synoptic"
  else mergeLeft (dropSynCols original) synoptic

/-- Values of the named column down the rows of a table. -/
def colValues (f : Frame) (c : String) : List (Option ℚ) :=
  f.rows.map (fun r => r.2.getD (f.cols.indexOf c) none)

/-! ## Fusion entry point when no station qualifies,
src/Scrapers/SynopticScraper.py lines 210 to 220 -/

/-- Metadata document as the fusion entry point sees it: only the presence
and content of the synoptic_source block matters here. -/
structure MetaDoc where
  synoptic_source : Option String
deriving DecidableEq

/-- The branch of main taken when find_nearest_station returns no station,
src/Scrapers/SynopticScraper.py lines 212 to 220: add an all-missing
SR_Synoptic column only when none exists, write the CSV, leave the metadata
file untouched, and exit with status 0. The result is (exit status, written
CSV table, metadata document on disk). -/
def fusionNoStation (df : Frame) (meta : MetaDoc) : Nat × Frame × MetaDoc :=
  (0, (if df.cols.contains "SR_Synoptic" then df else setColNone df "SR_Synoptic"), meta)

/-! ## Outbound HTTP call sites of the repository.

Each entry records, for one requests call in the source, the module it
lives in, whether it goes through the retrying session built by get_session
of src/scraper.py lines 50 to 66 or through a bare requests.get, and
whether the call site is wrapped in a try block that catches every
exception. -/

/-- Retry configuration of urllib3 Retry as built in get_session,
src/scraper.py lines 55 to 62. -/
structure RetryConfig where
  total : Nat
  backoff_factor : Nat
  status_forcelist : List Nat
  readRetries : Nat
  connectRetries : Nat
deriving DecidableEq

/-- The Retry object of src/scraper.py lines 55 to 62. -/
def get_session_retry : RetryConfig :=
  ⟨5, 2, [429, 500, 502, 503, 504], 5, 5⟩

/-- Which HTTP client a call site uses. -/
inductive ClientKind where
  | resilientSession : ClientKind
  | plainRequests : ClientKind
deriving DecidableEq

/-- Retry budget a call site gets from its client: the Retry total for a
session from get_session, none at all for a bare requests.get. -/
def clientRetryTotal : ClientKind → Nat
  | ClientKind.resilientSession => get_session_retry.total
  | ClientKind.plainRequests => 0

/-- One outbound HTTP call site of the source. -/
structure RequestSite where
  siteName : String
  module : String
  client : ClientKind
  exceptionsCaught : Bool
deriving DecidableEq

/-- Every outbound HTTP call site of the repository: four in src/scraper.py
(lines 79, 93, 127, 152), all through get_session sessions inside try
blocks, and two in src/Scrapers/SynopticScraper.py (lines 62, 97), both
through bare requests.get inside try blocks. -/
def requestSites : List RequestSite :=
  [⟨"get_sites.countiesByState", "scraper.py", ClientKind.resilientSession, true⟩,
   ⟨"get_sites.sitesByCounty", "scraper.py", ClientKind.resilientSession, true⟩,
   ⟨"check_site_monitors", "scraper.py", ClientKind.resilientSession, true⟩,
   ⟨"fetch_hourly_data", "scraper.py", ClientKind.resilientSession, true⟩,
   ⟨"find_nearest_station", "SynopticScraper.py", ClientKind.plainRequests, true⟩,
   ⟨"fetch_synoptic_data", "SynopticScraper.py", ClientKind.plainRequests, true⟩]

/-! ## Concrete instances used by witnesses and counterexamples -/

/-- One ozone record with no attributes. -/
def recO3 : RawRecord := ⟨0, "44201", 1, []⟩

/-- A monitor list missing most required codes. -/
def monsBad : List Monitor := [⟨"44201"⟩]

/-- A monitor list covering every required code. -/
def monsAll : List Monitor :=
  [⟨"44201"⟩, ⟨"42601"⟩, ⟨"42602"⟩, ⟨"63301"⟩, ⟨"62101"⟩]

/-! ## Claim C5 -/

theorem lookup_isSome_of_required {c : String} (hc : c ∈ requiredCodes) :
    (PARAMS.lookup c).isSome :=
  (by decide : ∀ c ∈ requiredCodes, (PARAMS.lookup c).isSome = true) c hc

/-- C5: check_site_monitors accepts a site exactly when the set of parameter
codes observed in its instrumentation record contains every required code,
and a site it rejects is excluded before any retrieval: the site loop step
writes nothing for it whatever retrieval would have returned. -/
theorem capability_filter_iff (monitors : List Monitor) :
    ((check_site_monitors monitors).1 = true ↔
      ∀ c ∈ requiredCodes, ∃ m ∈ monitors, m.parameter_code = c) ∧
    (∀ records, (check_site_monitors monitors).1 = false →
      siteStep monitors records = none) := by
  constructor
  · simp only [check_site_monitors, List.all_eq_true, List.contains, List.elem_iff,
      mem_uniqueFirst, List.mem_filter, List.mem_map]
    constructor
    · intro h c hc
      rcases (h c hc).1 with ⟨m, hm, hmc⟩
      exact ⟨m, hm, hmc⟩
    · intro h c hc
      rcases h c hc with ⟨m, hm, hmc⟩
      exact ⟨⟨m, hm, hmc⟩, lookup_isSome_of_required hc⟩
  · intro records h
    simp [siteStep, h]

/-- Witness for C5: the single-code monitor list fails the check and its
site is skipped even though retrieval data exists. -/
theorem capability_filter_iff_witness : siteStep monsBad [recO3] = none :=
  (capability_filter_iff monsBad).2 [recO3] (by decide)

/-! ## Claim C10 -/

/-- C10: a site passing the monitor check whose retrieval yields zero raw
samples produces no artifacts at all: the site loop step returns none
instead of an empty table with the required schema. -/
theorem empty_retrieval_no_artifacts (monitors : List Monitor)
    (h : (check_site_monitors monitors).1 = true) :
    siteStep monitors [] = none := by
  simp [siteStep, h]

/-- Witness for C10 at a monitor list covering every required code. -/
theorem empty_retrieval_no_artifacts_witness : siteStep monsAll [] = none :=
  empty_retrieval_no_artifacts monsAll (by decide)

/-! ## Claim C9 -/

/-- C9: the cleaned view has exactly the required columns in fixed order and
keeps, in order, precisely the rows of the reindexed wide table in which no
required column is missing. -/
theorem cleaned_view_exact (records : List RawRecord) :
    ((cleanedFrame records).cols = requiredCols) ∧
    ((cleanedFrame records).rows.Sublist (reindexedFrame records).rows) ∧
    (∀ row, row ∈ (cleanedFrame records).rows ↔
      (row ∈ (reindexedFrame records).rows ∧ ∀ cell ∈ row.2, cell ≠ none)) := by
  refine ⟨rfl, List.filter_sublist _, fun row => ?_⟩
  simp only [cleanedFrame, dropna, List.mem_filter, List.all_eq_true,
    Option.isSome_iff_ne_none]

/-- Witness for C9 at a concrete record list. -/
theorem cleaned_view_exact_witness : (cleanedFrame [recO3]).cols = requiredCols :=
  (cleaned_view_exact [recO3]).1

/-! ## Claim C3 -/

/-- Counterexample to C3: with samples for the ozone channel only, the raw
table saved before cleaning has the single column O3, not the required
five-column set. -/
theorem raw_csv_missing_required_cols :
    (rawFrame [recO3]).cols = ["O3"] ∧
    "NO" ∈ requiredCols ∧ "NO" ∉ (rawFrame [recO3]).cols := by
  decide

/-- C3 amended: the raw wide table persisted before cleaning has one column
per channel that actually had data; the fixed required column set, with
absent channels as all-missing columns, is imposed only by the reindexing
step that feeds the cleaned view. -/
theorem raw_csv_cols_observed (records : List RawRecord) :
    (∀ c, c ∈ (rawFrame records).cols ↔ ∃ r ∈ records, paramName r = some c) ∧
    ((reindexedFrame records).cols = requiredCols) := by
  refine ⟨fun c => ?_, rfl⟩
  simp only [rawFrame, pivotCols, mem_sortStr, mem_uniqueFirst, List.mem_filterMap]

/-- Witness for the amended C3 at a concrete record list. -/
theorem raw_csv_cols_observed_witness : (reindexedFrame [recO3]).cols = requiredCols :=
  (raw_csv_cols_observed [recO3]).2

/-! ## Claim C6 -/

/-- Counterexample to C6: the nearest-station request of the fusion scraper
is issued through bare requests.get, not through the retrying session of
get_session, so it has no retry budget at all. -/
theorem http_bypasses_resilient_client :
    (⟨"find_nearest_station", "SynopticScraper.py", ClientKind.plainRequests, true⟩ :
      RequestSite) ∈ requestSites ∧
    ClientKind.plainRequests ≠ ClientKind.resilientSession ∧
    clientRetryTotal ClientKind.plainRequests = 0 := by
  decide

/-- C6 amended: the requests issued from scraper.py all go through the
retrying session of get_session, whose Retry carries a budget of 5 with
exponential backoff factor 2 on statuses 429, 500, 502, 503 and 504 and
separate read and connect budgets of 5; the two requests of
SynopticScraper.py use bare requests.get with no retry; and every call site
in either module is wrapped in a try block that catches every exception, so
no request raises past the issuing function. -/
theorem http_call_site_policy :
    (requestSites.all (fun s => s.exceptionsCaught) = true) ∧
    (requestSites.all (fun s =>
      (s.module != "scraper.py") || (s.client == ClientKind.resilientSession)) = true) ∧
    (requestSites.all (fun s =>
      (s.module != "SynopticScraper.py") || (s.client == ClientKind.plainRequests)) = true) ∧
    get_session_retry.total = 5 ∧
    get_session_retry.backoff_factor = 2 ∧
    get_session_retry.status_forcelist = [429, 500, 502, 503, 504] ∧
    get_session_retry.readRetries = 5 ∧
    get_session_retry.connectRetries = 5 ∧
    clientRetryTotal ClientKind.resilientSession = 5 ∧
    clientRetryTotal ClientKind.plainRequests = 0 := by
  decide

/-! ## Claim C8 -/

/-- C8: the channel metadata has one entry per required channel in fixed
order, a channel with zero samples is marked no-data, a channel with data
maps every candidate field through the collapse rule, and the collapse of a
field yields the null marker exactly when no non-null value was observed,
the scalar exactly when every observed non-null value is that one value,
and otherwise the full duplicate-free list of observed values, of length at
least two. -/
theorem metadata_collapse_rule (records : List RawRecord) :
    ((parameter_details records).map Prod.fst = ["O3", "NO", "NO2", "SR", "Temp"]) ∧
    (∀ p ∈ PARAMS, records.filter (fun r => r.parameter_code == p.1) = [] →
      (p.2, ChannelMeta.noData) ∈ parameter_details records) ∧
    (∀ p ∈ PARAMS, records.filter (fun r => r.parameter_code == p.1) ≠ [] →
      channelDetails records p.1 = ChannelMeta.fieldMap ((candidateFields records).map
        (fun f => (f, collapseField (records.filter (fun r => r.parameter_code == p.1)) f)))) ∧
    (∀ subset : List RawRecord, ∀ f : String,
      ((collapseField subset f = FieldVal.nullVal ↔
        subset.filterMap (fun r => attrValue r f) = []) ∧
      (∀ v, collapseField subset f = FieldVal.scalar v ↔
        (v ∈ subset.filterMap (fun r => attrValue r f) ∧
          ∀ w ∈ subset.filterMap (fun r => attrValue r f), w = v)) ∧
      (∀ vs, collapseField subset f = FieldVal.multi vs →
        vs.Nodup ∧ 2 ≤ vs.length ∧
          ∀ v, (v ∈ vs ↔ v ∈ subset.filterMap (fun r => attrValue r f))))) := by
  refine ⟨rfl, ?_, ?_, ?_⟩
  · intro p hp hfil
    refine List.mem_map.mpr ⟨p, hp, ?_⟩
    simp [channelDetails, hfil]
  · intro p hp hfil
    simp [channelDetails, List.isEmpty_iff, hfil]
  · intro subset f
    have hcf : collapseField subset f =
        (match uniqueFirst (subset.filterMap (fun r => attrValue r f)) with
          | [] => FieldVal.nullVal
          | [v] => FieldVal.scalar v
          | vs => FieldVal.multi vs) := rfl
    rcases hu : uniqueFirst (subset.filterMap (fun r => attrValue r f)) with _ | ⟨v0, _ | ⟨w0, t0⟩⟩
    · simp only [hu] at hcf
      have hobs : subset.filterMap (fun r => attrValue r f) = [] := uniqueFirst_eq_nil.mp hu
      refine ⟨by simp [hcf, hobs], fun v => ?_, fun vs hvs => ?_⟩
      · simp [hcf, hobs]
      · rw [hcf] at hvs; cases hvs
    · simp only [hu] at hcf
      have hchar := uniqueFirst_eq_singleton.mp hu
      refine ⟨?_, fun v => ?_, fun vs hvs => ?_⟩
      · rw [hcf]
        constructor
        · intro hh; cases hh
        · intro hobs
          rw [hobs] at hu
          simp [uniqueFirst] at hu
      · rw [hcf]
        constructor
        · intro hv
          cases hv
          exact hchar
        · intro hv
          have : uniqueFirst (subset.filterMap (fun r => attrValue r f)) = [v] :=
            uniqueFirst_eq_singleton.mpr hv
          rw [hu] at this
          cases this
          rfl
      · rw [hcf] at hvs; cases hvs
    · simp only [hu] at hcf
      refine ⟨?_, fun v => ?_, fun vs hvs => ?_⟩
      · rw [hcf]
        constructor
        · intro hh; cases hh
        · intro hobs
          rw [hobs] at hu
          simp [uniqueFirst] at hu
      · rw [hcf]
        constructor
        · intro hh; cases hh
        · intro hv
          have : uniqueFirst (subset.filterMap (fun r => attrValue r f)) = [v] :=
            uniqueFirst_eq_singleton.mpr hv
          rw [hu] at this
          cases this
      · rw [hcf] at hvs
        cases hvs
        refine ⟨hu ▸ uniqueFirst_nodup _, by simp, fun v => ?_⟩
        rw [← mem_uniqueFirst (l := subset.filterMap (fun r => attrValue r f)), hu]

/-- Witness for C8: with ozone-only records, the NO channel entry is the
no-data marker. -/
theorem metadata_collapse_rule_witness :
    ("NO", ChannelMeta.noData) ∈ parameter_details [recO3] :=
  (metadata_collapse_rule [recO3]).2.1 ("42601", "NO") (by decide) (by decide)

/-! ## Claim C7 -/

/-- C7: the pivot produces exactly one row per distinct timestamp observed
across all channels, the union over channels, and a cell holding some value
is the arithmetic mean of every sample sharing that timestamp and channel,
so that value times the group size equals the group sum. -/
theorem pivot_rows_union_mean (records : List RawRecord)
    (h : ∀ r ∈ records, (paramName r).isSome) :
    ((rawFrame records).rows.map Prod.fst = pivotIndex records) ∧
    (∀ t, t ∈ pivotIndex records ↔ ∃ r ∈ records, r.dt = t) ∧
    ((pivotIndex records).Nodup) ∧
    (∀ t ch, groupVals records t ch = [] → pivotCell records t ch = none) ∧
    (∀ t ch v, pivotCell records t ch = some v →
      groupVals records t ch ≠ [] ∧
      v * ((groupVals records t ch).length : ℚ) = (groupVals records t ch).sum) := by
  refine ⟨?_, ?_, ?_, ?_, ?_⟩
  · simp [rawFrame, List.map_map, Function.comp_def]
  · intro t
    simp only [pivotIndex, mem_sortNat, mem_uniqueFirst, List.mem_map, List.mem_filter]
    constructor
    · rintro ⟨r, ⟨hr, _⟩, rfl⟩
      exact ⟨r, hr, rfl⟩
    · rintro ⟨r, hr, rfl⟩
      exact ⟨r, ⟨hr, h r hr⟩, rfl⟩
  · exact sortNat_nodup (uniqueFirst_nodup _)
  · intro t ch hg
    simp [pivotCell, hg]
  · intro t ch v hv
    rw [pivotCell] at hv
    by_cases hg : groupVals records t ch = []
    · simp [hg] at hv
    · refine ⟨hg, ?_⟩
      rw [if_neg hg] at hv
      have hv2 : v = mean (groupVals records t ch) := (Option.some.inj hv).symm
      have hlen0 : (groupVals records t ch).length ≠ 0 :=
        fun hh => hg (List.length_eq_zero.mp hh)
      have hlen : ((groupVals records t ch).length : ℚ) ≠ 0 := Nat.cast_ne_zero.mpr hlen0
      rw [hv2, mean, div_mul_cancel₀ _ hlen]

/-- Records with a duplicated timestamp and channel pair plus a second
timestamp carrying only one channel. -/
def recsDup : List RawRecord :=
  [⟨0, "44201", 1, []⟩, ⟨0, "44201", 2, []⟩, ⟨1, "62101", 4, []⟩]

/-- Witness for C7 at a concrete record list with duplicate samples. -/
theorem pivot_rows_union_mean_witness : (pivotIndex recsDup).Nodup :=
  (pivot_rows_union_mean recsDup
    (show ∀ r ∈ recsDup, (paramName r).isSome = true by decide)).2.2.1

/-! ## Helper lemmas for the fusion merge -/

theorem filter_beq_of_nodup {syn : List (Nat × ℚ)} (t : Nat)
    (hn : (syn.map Prod.fst).Nodup) :
    syn.filter (fun p => p.1 == t) =
      (match syn.find? (fun p => p.1 == t) with
        | none => ([] : List (Nat × ℚ))
        | some p => [p]) := by
  induction syn with
  | nil => rfl
  | cons q qs ih =>
    simp only [List.map_cons, List.nodup_cons] at hn
    by_cases hq : q.1 = t
    · subst hq
      have hrest : qs.filter (fun p => p.1 == q.1) = [] := by
        rw [List.filter_eq_nil_iff]
        intro p hp
        simp only [beq_iff_eq]
        intro hpt
        exact hn.1 (hpt ▸ List.mem_map_of_mem Prod.fst hp)
      simp [List.filter_cons, List.find?_cons, hrest]
    · have hbeq : (q.1 == t) = false := by simp [hq]
      rw [List.filter_cons, List.find?_cons, hbeq]
      simpa using ih hn.2

theorem mergeLeft_rows_eq (f : Frame) {syn : List (Nat × ℚ)}
    (hn : (syn.map Prod.fst).Nodup) :
    (mergeLeft f syn).rows = f.rows.map (fun r =>
      (r.1, r.2 ++ [(syn.find? (fun p => p.1 == r.1)).map Prod.snd])) := by
  simp only [mergeLeft]
  induction f.rows with
  | nil => rfl
  | cons r rs ih =>
    rw [List.flatMap_cons, List.map_cons, ih]
    rw [filter_beq_of_nodup r.1 hn]
    cases hfind : syn.find? (fun p => p.1 == r.1) with
    | none => simp
    | some p => simp

theorem zip_filter_map_len {α β : Type} (p : α → Bool) :
    ∀ (l1 : List α) (l2 : List β), l2.length = l1.length →
      (((l1.zip l2).filter (fun q => p q.1)).map Prod.snd).length = (l1.filter p).length := by
  intro l1
  induction l1 with
  | nil =>
    intro l2 h
    simp
  | cons x xs ih =>
    intro l2 h
    cases l2 with
    | nil => simp at h
    | cons y ys =>
      have hlen : ys.length = xs.length := by simpa using h
      rw [List.zip_cons_cons, List.filter_cons, List.filter_cons]
      by_cases hp : p x <;> simp [hp, ih ys hlen]

theorem indexOf_append_of_not_mem {c : String} {l : List String} (h : c ∉ l) :
    (l ++ [c]).indexOf c = l.length := by
  induction l with
  | nil => simp [List.indexOf_cons]
  | cons x xs ih =>
    have hx : (x == c) = false := by
      simp only [beq_eq_false_iff_ne, ne_eq]
      intro hxc
      exact h (hxc ▸ List.mem_cons_self x xs)
    rw [List.cons_append, List.indexOf_cons, hx]
    simp [ih (fun hm => h (List.mem_cons_of_mem _ hm))]

theorem syn_col_not_mem_filtered (cols : List String) :
    "SR_Synoptic" ∉ cols.filter (fun c => !(strContains c "SR_Synoptic")) := by
  intro hmem
  have h2 := (List.mem_filter.mp hmem).2
  have h3 : strContains "SR_Synoptic" "SR_Synoptic" = true := by decide
  rw [h3] at h2
  simp at h2

theorem getD_append_length {α : Type} (cells : List α) (v d : α) :
    (cells ++ [v]).getD cells.length d = v := by
  rw [List.getD_eq_getElem _ _ (by simp)]
  rw [List.getElem_append_right (le_refl _)]
  simp

theorem setColNone_eq_contains (f : Frame) (c : String) (hc : f.cols.contains c = true) :
    setColNone f c =
      { cols := f.cols
        rows := f.rows.map (fun r =>
          (r.1, (f.cols.zip r.2).map (fun p => if p.1 == c then none else p.2))) } := by
  rw [setColNone, if_pos hc]

theorem setColNone_eq_append (f : Frame) (c : String) (hc : ¬(f.cols.contains c = true)) :
    setColNone f c =
      { cols := f.cols ++ [c]
        rows := f.rows.map (fun r => (r.1, r.2 ++ [none])) } := by
  rw [setColNone, if_neg hc]

theorem setColNone_rows_shape (f : Frame) (c : String) :
    (setColNone f c).rows.length = f.rows.length ∧
    (setColNone f c).rows.map Prod.fst = f.rows.map Prod.fst := by
  by_cases hc : f.cols.contains c = true
  · rw [setColNone_eq_contains f c hc]
    exact ⟨List.length_map _ _, by rw [List.map_map]; rfl⟩
  · rw [setColNone_eq_append f c hc]
    exact ⟨List.length_map _ _, by rw [List.map_map]; rfl⟩

theorem setColNone_cell_none (f : Frame) (c : String) (hw : FrameWF f) :
    ∀ r ∈ (setColNone f c).rows,
      r.2.getD ((setColNone f c).cols.indexOf c) none = none := by
  by_cases hc : f.cols.contains c = true
  · rw [setColNone_eq_contains f c hc]
    intro r' hr'
    rcases List.mem_map.mp hr' with ⟨r, hr, rfl⟩
    have hmem : c ∈ f.cols := List.elem_iff.mp hc
    have hidx : f.cols.indexOf c < f.cols.length := List.indexOf_lt_length.mpr hmem
    have hzlen : (f.cols.zip r.2).length = f.cols.length := by
      rw [List.length_zip, hw r hr, Nat.min_self]
    have hmlen : f.cols.indexOf c <
        ((f.cols.zip r.2).map (fun p => if p.1 == c then none else p.2)).length := by
      rw [List.length_map, hzlen]
      exact hidx
    rw [List.getD_eq_getElem _ _ hmlen, List.getElem_map, List.getElem_zip]
    simp [List.getElem_indexOf hidx]
  · rw [setColNone_eq_append f c hc]
    intro r' hr'
    rcases List.mem_map.mp hr' with ⟨r, hr, rfl⟩
    have hnm : c ∉ f.cols := fun hm => hc (List.elem_iff.mpr hm)
    show (r.2 ++ [none]).getD ((f.cols ++ [c]).indexOf c) none = none
    rw [indexOf_append_of_not_mem hnm, ← hw r hr, getD_append_length]

/-! ## Claim C1 -/

/-- Canonical table with one timestamp and no value columns. -/
def dupOrig : Frame := ⟨[], [(0, [])]⟩

/-- Supplementary series with a duplicated wall-clock timestamp, as a
daylight-saving fall-back can produce. -/
def dupSyn : List (Nat × ℚ) := [(0, 1), (0, 2)]

/-- Counterexample to C1: when the supplementary series holds two entries
with the same timestamp, the left merge pairs the matching canonical row
with both of them, so the fused table gains a row. -/
theorem fuse_duplicates_rows_cex :
    dupOrig.rows.length = 1 ∧ (fuse_data dupOrig dupSyn).rows.length = 2 :=
  ⟨rfl, rfl⟩

/-- C1 amended: when the supplementary series has pairwise distinct
timestamps, fusion preserves the number and timestamp order of the
canonical rows exactly, and a canonical row with no exact timestamp match
receives a missing value in the fused column. Without that distinctness a
matching canonical row is duplicated, as the counterexample shows. -/
theorem fuse_preserves_rows (orig : Frame) (syn : List (Nat × ℚ))
    (hw : FrameWF orig) (hn : (syn.map Prod.fst).Nodup) :
    ((fuse_data orig syn).rows.length = orig.rows.length) ∧
    ((fuse_data orig syn).rows.map Prod.fst = orig.rows.map Prod.fst) ∧
    (∀ r ∈ (fuse_data orig syn).rows, r.1 ∉ syn.map Prod.fst →
      r.2.getD ((fuse_data orig syn).cols.indexOf "SR_Synoptic") none = none) := by
  by_cases hs : syn = []
  · subst hs
    have hfuse : fuse_data orig [] = setColNone orig "SR_Synoptic" := rfl
    rw [hfuse]
    refine ⟨(setColNone_rows_shape orig "SR_Synoptic").1,
      (setColNone_rows_shape orig "SR_Synoptic").2, ?_⟩
    intro r hr _
    exact setColNone_cell_none orig "SR_Synoptic" hw r hr
  · have hne2 : ¬(syn.isEmpty = true) := by
      cases syn with
      | nil => exact absurd rfl hs
      | cons a as => simp
    have hfuse : fuse_data orig syn = mergeLeft (dropSynCols orig) syn := by
      rw [fuse_data, if_neg hne2]
    have hrows := mergeLeft_rows_eq (dropSynCols orig) hn
    have hdrop : (dropSynCols orig).rows = orig.rows.map (fun r =>
      (r.1, ((orig.cols.zip r.2).filter
        (fun p => !(strContains p.1 "SR_Synoptic"))).map Prod.snd)) := rfl
    rw [hfuse, hrows, hdrop]
    refine ⟨by rw [List.length_map, List.length_map], by rw [List.map_map, List.map_map]; rfl, ?_⟩
    intro r' hr' hnot
    rcases List.mem_map.mp hr' with ⟨r2, hr2, rfl⟩
    rcases List.mem_map.mp hr2 with ⟨r, hr, rfl⟩
    have hfind : syn.find? (fun p => p.1 == r.1) = none := by
      rw [List.find?_eq_none]
      intro p hp
      simp only [beq_iff_eq]
      intro hpt
      exact hnot (hpt ▸ List.mem_map_of_mem Prod.fst hp)
    rw [hfind]
    have hcols : (mergeLeft (dropSynCols orig) syn).cols =
        orig.cols.filter (fun c => !(strContains c "SR_Synoptic")) ++ ["SR_Synoptic"] := rfl
    rw [hcols, indexOf_append_of_not_mem (syn_col_not_mem_filtered orig.cols)]
    have hdlen : (((orig.cols.zip r.2).filter
        (fun p => !(strContains p.1 "SR_Synoptic"))).map Prod.snd).length =
        (orig.cols.filter (fun c => !(strContains c "SR_Synoptic"))).length :=
      zip_filter_map_len (fun c => !(strContains c "SR_Synoptic")) orig.cols r.2 (hw r hr)
    rw [Option.map_none', ← hdlen, getD_append_length]

/-- Canonical table used by the C1 witness. -/
def worig : Frame := ⟨["O3"], [(0, [some 2]), (5, [some 7])]⟩

/-- Supplementary series with distinct timestamps used by the C1 witness. -/
def wsyn : List (Nat × ℚ) := [(0, 4)]

/-- Witness for C1 at a concrete table and series. -/
theorem fuse_preserves_rows_witness :
    (fuse_data worig wsyn).rows.map Prod.fst = worig.rows.map Prod.fst :=
  (fuse_preserves_rows worig wsyn
    (show ∀ r ∈ worig.rows, r.2.length = worig.cols.length by decide)
    (by decide)).2.1

/-! ## Claim C2 -/

/-- C2: fusing a non-empty supplementary series first drops every column
whose name has SR_Synoptic as a substring and then appends the single
freshly merged SR_Synoptic column, so the result carries exactly one such
column, holding the newly fetched values, never a duplicate or suffixed
pair. -/
theorem fuse_replaces_synoptic_column (orig : Frame) (syn : List (Nat × ℚ))
    (hne : syn ≠ []) :
    ((fuse_data orig syn).cols =
      orig.cols.filter (fun c => !(strContains c "SR_Synoptic")) ++ ["SR_Synoptic"]) ∧
    ((fuse_data orig syn).cols.filter (fun c => strContains c "SR_Synoptic") =
      ["SR_Synoptic"]) ∧
    ((fuse_data orig syn).cols.count "SR_Synoptic" = 1) ∧
    ((syn.map Prod.fst).Nodup →
      (fuse_data orig syn).rows = (dropSynCols orig).rows.map (fun r =>
        (r.1, r.2 ++ [(syn.find? (fun p => p.1 == r.1)).map Prod.snd]))) := by
  have hne2 : ¬(syn.isEmpty = true) := by
    cases syn with
    | nil => exact absurd rfl hne
    | cons a as => simp
  have hfuse : fuse_data orig syn = mergeLeft (dropSynCols orig) syn := by
    rw [fuse_data, if_neg hne2]
  have hcols : (fuse_data orig syn).cols =
      orig.cols.filter (fun c => !(strContains c "SR_Synoptic")) ++ ["SR_Synoptic"] := by
    rw [hfuse]; rfl
  have hself : strContains "SR_Synoptic" "SR_Synoptic" = true := by decide
  refine ⟨hcols, ?_, ?_, ?_⟩
  · rw [hcols, List.filter_append, List.filter_filter]
    have h1 : orig.cols.filter
        (fun a => strContains a "SR_Synoptic" && !(strContains a "SR_Synoptic")) = [] := by
      rw [List.filter_eq_nil_iff]
      intro a _
      simp
    rw [h1]
    simp [List.filter_cons, hself]
  · rw [hcols, List.count_append]
    have h0 : (orig.cols.filter (fun c => !(strContains c "SR_Synoptic"))).count
        "SR_Synoptic" = 0 :=
      List.count_eq_zero.mpr (syn_col_not_mem_filtered orig.cols)
    rw [h0]
    simp
  · intro hn
    rw [hfuse]
    exact mergeLeft_rows_eq _ hn

/-- Already fused canonical table used by the C2 witness. -/
def worig2 : Frame := ⟨["O3", "SR_Synoptic"], [(0, [some 2, some 9])]⟩

/-- Fresh supplementary series used by the C2 witness. -/
def wsyn2 : List (Nat × ℚ) := [(0, 4)]

/-- Witness for C2 at a table that already carries a fused column. -/
theorem fuse_replaces_synoptic_column_witness :
    (fuse_data worig2 wsyn2).cols =
      worig2.cols.filter (fun c => !(strContains c "SR_Synoptic")) ++ ["SR_Synoptic"] :=
  (fuse_replaces_synoptic_column worig2 wsyn2 (by decide)).1

/-! ## Claim C4 -/

/-- Already fused table with an old value, used against C4. -/
def cexDf : Frame := ⟨["SR_Synoptic"], [(0, [some 3])]⟩

/-- Metadata document carrying an old fusion block, used against C4. -/
def cexMeta : MetaDoc := ⟨some "old"⟩

/-- Counterexample to C4: when no station qualifies and a previously fused
SR_Synoptic column with old values is present, the entry point leaves the
table unchanged, so the written column still holds the old value and is not
entirely missing. -/
theorem fusion_keeps_old_values_cex :
    (fusionNoStation cexDf cexMeta).2.1 = cexDf ∧
    colValues cexDf "SR_Synoptic" = [some (3 : ℚ)] ∧
    some (3 : ℚ) ≠ (none : Option ℚ) :=
  ⟨rfl, rfl, by simp⟩

/-- C4 amended: when the nearest-source lookup finds no station, the run
exits with success status and the metadata document is left untouched; the
written table always carries an SR_Synoptic column, which is entirely
missing when none existed before, while a previously fused column is kept
with its old values rather than being replaced. -/
theorem fusion_no_station_behaviour (df : Frame) (meta : MetaDoc) (hw : FrameWF df) :
    ((fusionNoStation df meta).1 = 0) ∧
    ("SR_Synoptic" ∈ (fusionNoStation df meta).2.1.cols) ∧
    (df.cols.contains "SR_Synoptic" = true → (fusionNoStation df meta).2.1 = df) ∧
    (df.cols.contains "SR_Synoptic" = false →
      colValues (fusionNoStation df meta).2.1 "SR_Synoptic" =
        df.rows.map (fun _ => (none : Option ℚ))) ∧
    ((fusionNoStation df meta).2.2 = meta) := by
  refine ⟨rfl, ?_, ?_, ?_, rfl⟩
  · by_cases hc : df.cols.contains "SR_Synoptic" = true
    · have : (fusionNoStation df meta).2.1 = df := by
        simp only [fusionNoStation, if_pos hc]
      rw [this]
      exact List.elem_iff.mp hc
    · have : (fusionNoStation df meta).2.1 = setColNone df "SR_Synoptic" := by
        simp only [fusionNoStation, if_neg hc]
      rw [this, setColNone_eq_append df _ hc]
      exact List.mem_append_right _ (List.mem_singleton_self _)
  · intro hc
    simp only [fusionNoStation, if_pos hc]
  · intro hc
    have hc2 : ¬(df.cols.contains "SR_Synoptic" = true) := by rw [hc]; simp
    have h1 : (fusionNoStation df meta).2.1 = setColNone df "SR_Synoptic" := by
      simp only [fusionNoStation, if_neg hc2]
    rw [h1, setColNone_eq_append df _ hc2]
    have hnm : "SR_Synoptic" ∉ df.cols := fun hm => hc2 (List.elem_iff.mpr hm)
    show (df.rows.map (fun r => (r.1, r.2 ++ [none]))).map
        (fun r => r.2.getD ((df.cols ++ ["SR_Synoptic"]).indexOf "SR_Synoptic") none) =
      df.rows.map (fun _ => none)
    rw [List.map_map]
    refine List.map_congr_left (fun r hr => ?_)
    show (r.2 ++ [none]).getD ((df.cols ++ ["SR_Synoptic"]).indexOf "SR_Synoptic") none = none
    rw [indexOf_append_of_not_mem hnm, ← hw r hr, getD_append_length]

/-- Fresh table without a fused column, used by the C4 witness. -/
def wdf : Frame := ⟨["O3"], [(0, [some 2])]⟩

/-- Metadata document without a fusion block, used by the C4 witness. -/
def wmeta : MetaDoc := ⟨none⟩

/-- Witness for C4 at a concrete fresh table. -/
theorem fusion_no_station_behaviour_witness :
    colValues (fusionNoStation wdf wmeta).2.1 "SR_Synoptic" =
      wdf.rows.map (fun _ => (none : Option ℚ)) :=
  (fusion_no_station_behaviour wdf wmeta
    (show ∀ r ∈ wdf.rows, r.2.length = wdf.cols.length by decide)).2.2.2.1 (by decide)

end Leighton
